import Mathlib

/-!
Verification of the command-line entrypoint `main.py` of the
cs224n-win18-squad repository (SQuAD question-answering driver).

The file shallowly embeds the entrypoint: `initialize_model` (checkpoint
restore-or-initialize), `main` (flag validation, defaulting of `train_dir`
and `glove_path`, and three-way mode dispatch), and the module top level
(imports, argparse, setting `CUDA_VISIBLE_DEVICES`, `tf.app.run`).
Side effects are modelled as an explicit event trace; exceptions as
`Except` with a structured error type carrying the exact message text.
-/

namespace Squad

/-- Python `os.path.join(a, b)` (posixpath, two arguments): if `b` is
absolute the result is `b`; if `a` is empty or ends with a slash the parts
are concatenated; otherwise a slash separator is inserted. -/
def joinPath (a b : String) : String :=
  if b.data.head? = some '/' then b
  else if a = "" || a.data.getLast? = some '/' then a ++ b
  else a ++ "/" ++ b

/-- Python `a or b` on strings: the empty string is falsy. -/
def pyOr (a b : String) : String :=
  if a = "" then b else a

/-- `EXPERIMENTS_DIR = os.path.join(MAIN_DIR, "experiments")` (main.py line 40);
`MAIN_DIR` is the relative path of the repository root, kept abstract. -/
def EXPERIMENTS_DIR (mainDir : String) : String :=
  joinPath mainDir "experiments"

/-- `DEFAULT_DATA_DIR = os.path.join(MAIN_DIR, "data")` (main.py line 39). -/
def DEFAULT_DATA_DIR (mainDir : String) : String :=
  joinPath mainDir "data"

/-- The parsed command-line configuration: one field per `add_argument`
call in main.py's `__main__` block.  Float-typed hyperparameters carry no
arithmetic in this file, so they are represented as rationals. -/
structure Flags where
  gpu : Int
  mode : String
  experiment_name : String
  num_epochs : Int
  learning_rate : Rat
  max_gradient_norm : Rat
  dropout : Rat
  batch_size : Int
  hidden_size : Int
  context_len : Int
  question_len : Int
  embedding_size : Int
  print_every : Int
  save_every : Int
  eval_every : Int
  keep : Int
  train_dir : String
  glove_path : String
  data_dir : String
  ckpt_load_dir : String
  json_in_path : String
  json_out_path : String
deriving DecidableEq

/-- Result of `tf.train.get_checkpoint_state`: when a checkpoint record is
present it names the latest checkpoint file. -/
structure Ckpt where
  model_checkpoint_path : String
deriving DecidableEq

/-- The ambient world the entrypoint interacts with: the framework's
checkpoint-state lookup, `tf.gfile.Exists`, `os.path.exists`, the total
trainable parameter count of the constructed model, and `MAIN_DIR`. -/
structure Env where
  get_checkpoint_state : String → Option Ckpt
  gfileExists : String → Bool
  pathExists : String → Bool
  numParams : Nat
  mainDir : String

/-- The `Exception`s main.py can raise, one constructor per `raise` site,
each carrying the data interpolated into the message. -/
inductive Err where
  | badArgv (argv : String)
  | wrongPython (major : Int)
  | needExperimentNameOrTrainDir
  | needJsonInPath
  | needCkptLoadDir
  | noCheckpoint (dir : String)
  | unexpectedMode (mode : String)
deriving DecidableEq

/-- The exact message string each `raise Exception(...)` formats. -/
def Err.message : Err → String
  | .badArgv argv => "There is a problem with how you entered flags: " ++ argv
  | .wrongPython major =>
      "ERROR: You must use Python 2 but you are running Python " ++ toString major
  | .needExperimentNameOrTrainDir =>
      "You need to specify either --experiment_name or --train_dir"
  | .needJsonInPath => "For official_eval mode, you need to specify --json_in_path"
  | .needCkptLoadDir => "For official_eval mode, you need to specify --ckpt_load_dir"
  | .noCheckpoint dir => "There is no saved checkpoint at " ++ dir
  | .unexpectedMode mode => "Unexpected value of FLAGS.mode: " ++ mode

/-- Observable actions of the entrypoint, in program order. -/
inductive Event where
  | lookFor (dir : String)
  | restore (path : String)
  | freshInit
  | reportNumParams (n : Nat)
  | loadGlove (path : String) (dim : Int)
  | buildModel
  | makedirs (path : String)
  | addLogFileHandler (path : String)
  | writeFlagsJson (path : String)
  | sessionOpen
  | trainCall (tc tq ta dq dc da : String)
  | checkF1EM (dc dq da : String)
  | readJsonInput (path : String)
  | generateAnswers
  | writePredictions (path : String)
deriving DecidableEq

/-- main.py lines 43-66.  `initialize_model(session, model, train_dir,
expect_exists)`: look up the checkpoint state of `train_dir`; if a record
exists and either its checkpoint file or its `.index` companion is
readable, restore from it; otherwise raise when `expect_exists` and
initialize fresh parameters (reporting the parameter count) when not. -/
def initialize_model (env : Env) (train_dir : String) (expect_exists : Bool) :
    Except Err (List Event) :=
  let look := Event.lookFor train_dir
  let ckpt := env.get_checkpoint_state train_dir
  let v2_path := match ckpt with
    | some c => c.model_checkpoint_path ++ ".index"
    | none => ""
  match ckpt with
  | some c =>
      if env.gfileExists c.model_checkpoint_path || env.gfileExists v2_path then
        .ok [look, .restore c.model_checkpoint_path]
      else if expect_exists then
        .error (.noCheckpoint train_dir)
      else
        .ok [look, .freshInit, .reportNumParams env.numParams]
  | none =>
      if expect_exists then
        .error (.noCheckpoint train_dir)
      else
        .ok [look, .freshInit, .reportNumParams env.numParams]

/-- The guard of the restore branch of `initialize_model`: a checkpoint
record exists and one of its files is readable. -/
def hasReadableCheckpoint (env : Env) (dir : String) : Bool :=
  match env.get_checkpoint_state dir with
  | some c =>
      env.gfileExists c.model_checkpoint_path ||
        env.gfileExists (c.model_checkpoint_path ++ ".index")
  | none => false

/-- The configuration after main.py lines 84 and 90: `train_dir` and
`glove_path` replaced by their defaults when empty (Python `or`). -/
def defaultedFlags (env : Env) (FLAGS : Flags) : Flags :=
  let FLAGS1 := { FLAGS with
    train_dir := pyOr FLAGS.train_dir
      (joinPath (EXPERIMENTS_DIR env.mainDir) FLAGS.experiment_name) }
  { FLAGS1 with
    glove_path := pyOr FLAGS1.glove_path
      (joinPath (DEFAULT_DATA_DIR env.mainDir)
        ("glove.6B." ++ toString FLAGS1.embedding_size ++ "d.txt")) }

/-- main.py lines 69-172.  Validation, defaulting and mode dispatch.
`argvLen` is `len(unused_argv)`, `pyMajor` is `sys.version_info[0]`.
Returns the configuration as it stands after the defaulting assignments
together with the trace of observable actions, or the raised exception. -/
def main (env : Env) (argvLen : Nat) (pyMajor : Int) (FLAGS : Flags) :
    Except Err (Flags × List Event) :=
  if argvLen ≠ 1 then .error (.badArgv "unused_argv")
  else if pyMajor ≠ 3 then .error (.wrongPython pyMajor)
  else if FLAGS.experiment_name = "" ∧ FLAGS.train_dir = "" ∧
      FLAGS.mode ≠ "official_eval" then
    .error .needExperimentNameOrTrainDir
  else
    let FLAGS2 := defaultedFlags env FLAGS
    let bestmodel_dir := joinPath FLAGS2.train_dir "best_checkpoint"
    let pre := [Event.loadGlove FLAGS2.glove_path FLAGS2.embedding_size,
                Event.buildModel]
    let train_context_path := joinPath FLAGS2.data_dir "train.context"
    let train_qn_path := joinPath FLAGS2.data_dir "train.question"
    let train_ans_path := joinPath FLAGS2.data_dir "train.span"
    let dev_context_path := joinPath FLAGS2.data_dir "dev.context"
    let dev_qn_path := joinPath FLAGS2.data_dir "dev.question"
    let dev_ans_path := joinPath FLAGS2.data_dir "dev.span"
    if FLAGS2.mode = "train" then
      match initialize_model env FLAGS2.train_dir false with
      | .error e => .error e
      | .ok initEvs =>
          .ok (FLAGS2, pre
            ++ (if env.pathExists FLAGS2.train_dir then []
                else [Event.makedirs FLAGS2.train_dir])
            ++ [Event.addLogFileHandler (joinPath FLAGS2.train_dir "log.txt"),
                Event.writeFlagsJson (joinPath FLAGS2.train_dir "flags.json")]
            ++ (if env.pathExists bestmodel_dir then []
                else [Event.makedirs bestmodel_dir])
            ++ [Event.sessionOpen] ++ initEvs
            ++ [Event.trainCall train_context_path train_qn_path train_ans_path
                  dev_qn_path dev_context_path dev_ans_path])
    else if FLAGS2.mode = "show_examples" then
      match initialize_model env bestmodel_dir true with
      | .error e => .error e
      | .ok initEvs =>
          .ok (FLAGS2, pre ++ [Event.sessionOpen] ++ initEvs
            ++ [Event.checkF1EM dev_context_path dev_qn_path dev_ans_path])
    else if FLAGS2.mode = "official_eval" then
      if FLAGS2.json_in_path = "" then .error .needJsonInPath
      else if FLAGS2.ckpt_load_dir = "" then .error .needCkptLoadDir
      else
        match initialize_model env FLAGS2.ckpt_load_dir true with
        | .error e => .error e
        | .ok initEvs =>
            .ok (FLAGS2, pre
              ++ [Event.readJsonInput FLAGS2.json_in_path, Event.sessionOpen]
              ++ initEvs
              ++ [Event.generateAnswers,
                  Event.writePredictions FLAGS2.json_out_path])
    else .error (.unexpectedMode FLAGS2.mode)

/-- Steps executed at module scope and in the `__main__` block, in order:
the imports (main.py lines 21-32), `logging.basicConfig`, computation of
the directory constants, construction of the argparse specification,
`parse_known_args`, the `os.environ` assignment (line 297), and
`tf.app.run` (line 299), which invokes `main`. -/
inductive TopEvent where
  | importModule (name : String)
  | loggingBasicConfig
  | computeDirConstants
  | argparseSetup
  | parseKnownArgs
  | setEnviron (var : String) (value : String)
  | tfAppRun
deriving DecidableEq

/-- The top-level execution trace of main.py for a parsed `--gpu` value. -/
def topLevel (gpu : Int) : List TopEvent :=
  [.importModule "os", .importModule "io", .importModule "json",
   .importModule "sys", .importModule "logging", .importModule "argparse",
   .importModule "tensorflow", .importModule "qa_model",
   .importModule "vocab", .importModule "official_eval_helper",
   .loggingBasicConfig, .computeDirConstants, .argparseSetup,
   .parseKnownArgs,
   .setEnviron "CUDA_VISIBLE_DEVICES" (toString gpu), .tfAppRun]

/-- A top-level step that initializes the TensorFlow framework: the
`import tensorflow` statement or the `tf.app.run` call. -/
def isTFInit : TopEvent → Bool
  | .importModule n => n = "tensorflow"
  | .tfAppRun => true
  | _ => false

/-- `a` occurs strictly before `b` somewhere in the trace `tr`. -/
def occursBefore {α : Type} (a b : α) (tr : List α) : Prop :=
  ∃ i j : Fin tr.length, i.val < j.val ∧ tr.get i = a ∧ tr.get j = b

instance {α : Type} [DecidableEq α] (a b : α) (tr : List α) :
    Decidable (occursBefore a b tr) := by
  unfold occursBefore; infer_instance

/-- The GPU-visibility assignment precedes every framework-initialization
step of the top-level trace (the reading of claim C9 under test). -/
def envSetBeforeAllTFInit (gpu : Int) : Prop :=
  ∀ i : Fin (topLevel gpu).length, isTFInit ((topLevel gpu).get i) = true →
    occursBefore (TopEvent.setEnviron "CUDA_VISIBLE_DEVICES" (toString gpu))
      ((topLevel gpu).get i) (topLevel gpu)

instance (gpu : Int) : Decidable (envSetBeforeAllTFInit gpu) := by
  unfold envSetBeforeAllTFInit; infer_instance

instance {ε α : Type} [DecidableEq ε] [DecidableEq α] :
    DecidableEq (Except ε α)
  | .error a, .error b =>
      if h : a = b then .isTrue (by rw [h]) else .isFalse (by simp [h])
  | .error _, .ok _ => .isFalse (by simp)
  | .ok _, .error _ => .isFalse (by simp)
  | .ok a, .ok b =>
      if h : a = b then .isTrue (by rw [h]) else .isFalse (by simp [h])

/-- A world with no checkpoint anywhere and no existing directories. -/
def envT : Env :=
  { get_checkpoint_state := fun _ => none
    gfileExists := fun _ => false
    pathExists := fun _ => false
    numParams := 7
    mainDir := "" }

/-- A world holding one checkpoint record under directory `ckpts`, whose
v2 index file is the one that is readable. -/
def envC : Env :=
  { get_checkpoint_state := fun d =>
      if d = "ckpts" then some ⟨"ckpts/model-500"⟩ else none
    gfileExists := fun s => s = "ckpts/model-500.index"
    pathExists := fun _ => true
    numParams := 5
    mainDir := "" }

/-- A train-mode command line: `--mode train --experiment_name expo` with
the argparse defaults elsewhere (`train_dir` and `glove_path` empty). -/
def flagsT : Flags :=
  { gpu := 0, mode := "train", experiment_name := "expo", num_epochs := 0,
    learning_rate := 1, max_gradient_norm := 5, dropout := 0,
    batch_size := 100, hidden_size := 200, context_len := 600,
    question_len := 30, embedding_size := 100, print_every := 1,
    save_every := 500, eval_every := 500, keep := 1,
    train_dir := "", glove_path := "", data_dir := "data",
    ckpt_load_dir := "", json_in_path := "", json_out_path := "predictions.json" }

/-- A train-mode command line giving neither an experiment name nor a
training directory. -/
def flagsNoName : Flags :=
  { flagsT with experiment_name := "" }

/-- A command line whose mode is none of the three recognized values. -/
def flagsBadMode : Flags :=
  { flagsT with mode := "eval" }

/-- An official_eval command line with both required flags supplied and
neither experiment name nor training directory. -/
def flagsOE : Flags :=
  { flagsT with
    mode := "official_eval"
    experiment_name := ""
    json_in_path := "dev.json"
    ckpt_load_dir := "ckpts" }

/-- An official_eval command line missing `--json_in_path`. -/
def flagsOEnoJson : Flags :=
  { flagsOE with json_in_path := "" }

/-- The event trace of a train-mode run of `main` under `envT`/`flagsT`. -/
def trainTrace : List Event :=
  [.loadGlove "data/glove.6B.100d.txt" 100, .buildModel,
   .makedirs "experiments/expo", .addLogFileHandler "experiments/expo/log.txt",
   .writeFlagsJson "experiments/expo/flags.json",
   .makedirs "experiments/expo/best_checkpoint", .sessionOpen,
   .lookFor "experiments/expo", .freshInit, .reportNumParams 7,
   .trainCall "data/train.context" "data/train.question" "data/train.span"
     "data/dev.question" "data/dev.context" "data/dev.span"]

/-! ## Helper lemmas -/

/-- The only exception `initialize_model` raises is the missing-checkpoint
one, naming the directory it searched. -/
theorem initialize_model_error_eq {env : Env} {d : String} {ee : Bool} {e : Err}
    (h : initialize_model env d ee = .error e) : e = .noCheckpoint d := by
  unfold initialize_model at h
  dsimp only at h
  split at h
  · split at h
    · exact Except.noConfusion h
    · split at h
      · injection h with h; exact h.symm
      · exact Except.noConfusion h
  · split at h
    · injection h with h; exact h.symm
    · exact Except.noConfusion h

/-- With `expect_exists = False`, `initialize_model` never raises. -/
theorem initialize_model_false_ok (env : Env) (d : String) :
    ∃ evs, initialize_model env d false = .ok evs := by
  unfold initialize_model
  dsimp only
  split
  · split
    · exact ⟨_, rfl⟩
    · exact ⟨_, rfl⟩
  · exact ⟨_, rfl⟩

/-- Whenever `main` returns normally, the configuration it worked with is
the parsed one with the two defaulting assignments applied. -/
theorem main_ok_flags {env : Env} {a : Nat} {p : Int} {FLAGS f : Flags}
    {tr : List Event} (h : main env a p FLAGS = .ok (f, tr)) :
    f = defaultedFlags env FLAGS := by
  unfold main at h
  dsimp only at h
  split at h
  · exact Except.noConfusion h
  split at h
  · exact Except.noConfusion h
  split at h
  · exact Except.noConfusion h
  split at h
  · split at h
    · exact Except.noConfusion h
    · injection h with h; exact (Prod.mk.injEq _ _ _ _ ▸ h).1.symm
  split at h
  · split at h
    · exact Except.noConfusion h
    · injection h with h; exact (Prod.mk.injEq _ _ _ _ ▸ h).1.symm
  split at h
  · split at h
    · exact Except.noConfusion h
    split at h
    · exact Except.noConfusion h
    split at h
    · exact Except.noConfusion h
    · injection h with h; exact (Prod.mk.injEq _ _ _ _ ▸ h).1.symm
  · exact Except.noConfusion h

/-- Inversion for exceptional runs of `main`: which exception can be
raised under which part of the configuration. -/
theorem main_error_inv {env : Env} {a : Nat} {p : Int} {FLAGS : Flags} {e : Err}
    (h : main env a p FLAGS = .error e) :
    (a ≠ 1 ∧ e = .badArgv "unused_argv") ∨
    (p ≠ 3 ∧ e = .wrongPython p) ∨
    (FLAGS.experiment_name = "" ∧ FLAGS.train_dir = "" ∧
      FLAGS.mode ≠ "official_eval" ∧ e = .needExperimentNameOrTrainDir) ∨
    (∃ d, e = .noCheckpoint d) ∨
    (FLAGS.mode = "official_eval" ∧ FLAGS.json_in_path = "" ∧
      e = .needJsonInPath) ∨
    (FLAGS.mode = "official_eval" ∧ FLAGS.json_in_path ≠ "" ∧
      FLAGS.ckpt_load_dir = "" ∧ e = .needCkptLoadDir) ∨
    (FLAGS.mode ≠ "train" ∧ FLAGS.mode ≠ "show_examples" ∧
      FLAGS.mode ≠ "official_eval" ∧ e = .unexpectedMode FLAGS.mode) := by
  unfold main at h
  dsimp only at h
  split at h
  · next hc => injection h with h; exact Or.inl ⟨hc, h.symm⟩
  split at h
  · next hc => injection h with h; exact Or.inr (Or.inl ⟨hc, h.symm⟩)
  split at h
  · next hc =>
      injection h with h
      exact Or.inr (Or.inr (Or.inl ⟨hc.1, hc.2.1, hc.2.2, h.symm⟩))
  split at h
  · split at h
    · next heq =>
        injection h with h
        exact Or.inr (Or.inr (Or.inr (Or.inl
          ⟨_, h.symm.trans (initialize_model_error_eq heq)⟩)))
    · exact Except.noConfusion h
  split at h
  · split at h
    · next heq =>
        injection h with h
        exact Or.inr (Or.inr (Or.inr (Or.inl
          ⟨_, h.symm.trans (initialize_model_error_eq heq)⟩)))
    · exact Except.noConfusion h
  split at h
  · next hmode =>
      split at h
      · next hjson =>
          injection h with h
          exact Or.inr (Or.inr (Or.inr (Or.inr (Or.inl ⟨hmode, hjson, h.symm⟩))))
      split at h
      · next hjson hckpt =>
          injection h with h
          exact Or.inr (Or.inr (Or.inr (Or.inr (Or.inr (Or.inl
            ⟨hmode, hjson, hckpt, h.symm⟩)))))
      split at h
      · next heq =>
          injection h with h
          exact Or.inr (Or.inr (Or.inr (Or.inl
            ⟨_, h.symm.trans (initialize_model_error_eq heq)⟩)))
      · exact Except.noConfusion h
  · next h1 h2 h3 =>
      injection h with h
      exact Or.inr (Or.inr (Or.inr (Or.inr (Or.inr (Or.inr ⟨h1, h2, h3, h.symm⟩)))))

/-! ## Claim theorems -/

/-- Claim C1: in `initialize_model`, a directory with no readable
checkpoint raises the missing-checkpoint exception when
`expect_exists = True` and proceeds without error when
`expect_exists = False`, initializing fresh parameters and reporting the
trainable parameter count; a readable checkpoint is always restored.
A checkpoint is readable exactly when a checkpoint record exists and its
file or its `.index` companion exists. -/
theorem initialize_model_restore_or_init (env : Env) (dir : String) :
    (hasReadableCheckpoint env dir = false →
      initialize_model env dir true = .error (.noCheckpoint dir) ∧
      initialize_model env dir false =
        .ok [.lookFor dir, .freshInit, .reportNumParams env.numParams]) ∧
    (∀ c : Ckpt, env.get_checkpoint_state dir = some c →
      (env.gfileExists c.model_checkpoint_path ||
        env.gfileExists (c.model_checkpoint_path ++ ".index")) = true →
      ∀ expect_exists : Bool, initialize_model env dir expect_exists =
        .ok [.lookFor dir, .restore c.model_checkpoint_path]) ∧
    (hasReadableCheckpoint env dir = true ↔
      ∃ c, env.get_checkpoint_state dir = some c ∧
        (env.gfileExists c.model_checkpoint_path ||
          env.gfileExists (c.model_checkpoint_path ++ ".index")) = true) := by
  unfold initialize_model hasReadableCheckpoint
  cases h : env.get_checkpoint_state dir with
  | none => simp
  | some c =>
      by_cases hex : (env.gfileExists c.model_checkpoint_path ||
          env.gfileExists (c.model_checkpoint_path ++ ".index")) = true
      · simp [hex]
        simpa using hex
      · simp [hex]
        simpa using hex

/-- Witness for C1: under `envT` (no checkpoint) the two `expect_exists`
behaviors, and under `envC` the restore from the found checkpoint. -/
theorem initialize_model_restore_or_init_witness :
    (initialize_model envT "d" true = Except.error (Err.noCheckpoint "d") ∧
     initialize_model envT "d" false =
       Except.ok [Event.lookFor "d", Event.freshInit,
         Event.reportNumParams envT.numParams]) ∧
    initialize_model envC "ckpts" true =
      Except.ok [Event.lookFor "ckpts", Event.restore "ckpts/model-500"] :=
  ⟨(initialize_model_restore_or_init envT "d").1 (by decide),
   (initialize_model_restore_or_init envC "ckpts").2.1 ⟨"ckpts/model-500"⟩
     (by decide) (by decide) true⟩

/-- Counterexample to claim C2 as stated: in the train-mode run under
`envT`/`flagsT` (no directories exist yet), the configuration JSON is
written strictly before the best-checkpoint subdirectory is created, so
the claimed step order (both directories ensured before the
configuration is written) does not hold. -/
theorem train_mode_step_order_cex :
    main envT 1 3 flagsT = Except.ok (defaultedFlags envT flagsT, trainTrace) ∧
    occursBefore (Event.writeFlagsJson "experiments/expo/flags.json")
      (Event.makedirs "experiments/expo/best_checkpoint") trainTrace ∧
    ¬ occursBefore (Event.makedirs "experiments/expo/best_checkpoint")
      (Event.writeFlagsJson "experiments/expo/flags.json") trainTrace :=
  ⟨by decide, by decide, by decide⟩

/-- Claim C2 (amended): in train mode `main` ensures the run directory
exists, adds the log-file handler, writes the configuration JSON into the
run directory, ensures the best-checkpoint subdirectory exists, attempts
to restore the most recent checkpoint from the (defaulted) train_dir with
`expect_exists = False`, and then calls the training loop with the
tokenized train/dev context, question and answer file paths — in that
order. -/
theorem train_mode_trace (env : Env) (FLAGS : Flags)
    (hm : FLAGS.mode = "train")
    (hv : ¬(FLAGS.experiment_name = "" ∧ FLAGS.train_dir = "")) :
    ∃ initEvs,
      initialize_model env (defaultedFlags env FLAGS).train_dir false =
        .ok initEvs ∧
      main env 1 3 FLAGS = .ok (defaultedFlags env FLAGS,
        [Event.loadGlove (defaultedFlags env FLAGS).glove_path
           FLAGS.embedding_size, Event.buildModel]
        ++ (if env.pathExists (defaultedFlags env FLAGS).train_dir then []
            else [Event.makedirs (defaultedFlags env FLAGS).train_dir])
        ++ [Event.addLogFileHandler
              (joinPath (defaultedFlags env FLAGS).train_dir "log.txt"),
            Event.writeFlagsJson
              (joinPath (defaultedFlags env FLAGS).train_dir "flags.json")]
        ++ (if env.pathExists
              (joinPath (defaultedFlags env FLAGS).train_dir "best_checkpoint")
            then []
            else [Event.makedirs
              (joinPath (defaultedFlags env FLAGS).train_dir "best_checkpoint")])
        ++ [Event.sessionOpen] ++ initEvs
        ++ [Event.trainCall (joinPath FLAGS.data_dir "train.context")
              (joinPath FLAGS.data_dir "train.question")
              (joinPath FLAGS.data_dir "train.span")
              (joinPath FLAGS.data_dir "dev.question")
              (joinPath FLAGS.data_dir "dev.context")
              (joinPath FLAGS.data_dir "dev.span")]) := by
  obtain ⟨evs, hevs⟩ :=
    initialize_model_false_ok env (defaultedFlags env FLAGS).train_dir
  refine ⟨evs, hevs, ?_⟩
  unfold main
  dsimp only
  rw [if_neg (by simp), if_neg (by simp),
    if_neg (fun hh => hv ⟨hh.1, hh.2.1⟩),
    if_pos (show (defaultedFlags env FLAGS).mode = "train" from hm), hevs]
  rfl

/-- Witness for the amended C2, at the concrete run `envT`/`flagsT`. -/
theorem train_mode_trace_witness :
    ∃ initEvs,
      initialize_model envT (defaultedFlags envT flagsT).train_dir false =
        Except.ok initEvs ∧
      main envT 1 3 flagsT = Except.ok (defaultedFlags envT flagsT,
        [Event.loadGlove (defaultedFlags envT flagsT).glove_path
           flagsT.embedding_size, Event.buildModel]
        ++ (if envT.pathExists (defaultedFlags envT flagsT).train_dir then []
            else [Event.makedirs (defaultedFlags envT flagsT).train_dir])
        ++ [Event.addLogFileHandler
              (joinPath (defaultedFlags envT flagsT).train_dir "log.txt"),
            Event.writeFlagsJson
              (joinPath (defaultedFlags envT flagsT).train_dir "flags.json")]
        ++ (if envT.pathExists
              (joinPath (defaultedFlags envT flagsT).train_dir "best_checkpoint")
            then []
            else [Event.makedirs
              (joinPath (defaultedFlags envT flagsT).train_dir "best_checkpoint")])
        ++ [Event.sessionOpen] ++ initEvs
        ++ [Event.trainCall (joinPath flagsT.data_dir "train.context")
              (joinPath flagsT.data_dir "train.question")
              (joinPath flagsT.data_dir "train.span")
              (joinPath flagsT.data_dir "dev.question")
              (joinPath flagsT.data_dir "dev.context")
              (joinPath flagsT.data_dir "dev.span")]) :=
  train_mode_trace envT flagsT rfl (by decide)

/-- Claim C3: outside official_eval mode, leaving both
`--experiment_name` and `--train_dir` empty raises the fatal
missing-name exception with its documented message; in official_eval
mode the same absence does not raise that exception. -/
theorem missing_experiment_name_error (env : Env) (FLAGS : Flags)
    (he : FLAGS.experiment_name = "") (ht : FLAGS.train_dir = "") :
    (FLAGS.mode ≠ "official_eval" →
      main env 1 3 FLAGS = .error .needExperimentNameOrTrainDir ∧
      Err.needExperimentNameOrTrainDir.message =
        "You need to specify either --experiment_name or --train_dir") ∧
    (FLAGS.mode = "official_eval" →
      main env 1 3 FLAGS ≠ .error .needExperimentNameOrTrainDir) := by
  constructor
  · intro hm
    refine ⟨?_, rfl⟩
    unfold main
    dsimp only
    rw [if_neg (by simp), if_neg (by simp), if_pos ⟨he, ht, hm⟩]
  · intro hm hcontra
    rcases main_error_inv hcontra with
      ⟨h, _⟩ | ⟨h, _⟩ | ⟨_, _, h, _⟩ | ⟨d, h⟩ | ⟨_, _, h⟩ | ⟨_, _, _, h⟩ | ⟨_, _, h, _⟩
    · exact h rfl
    · exact h rfl
    · exact h hm
    · exact Err.noConfusion h
    · exact Err.noConfusion h
    · exact Err.noConfusion h
    · exact h hm

/-- Witness for C3: a train-mode run with both flags empty raises, and an
official_eval run with both flags empty does not raise that exception. -/
theorem missing_experiment_name_error_witness :
    (main envT 1 3 flagsNoName = Except.error Err.needExperimentNameOrTrainDir ∧
     Err.needExperimentNameOrTrainDir.message =
       "You need to specify either --experiment_name or --train_dir") ∧
    main envT 1 3 flagsOE ≠ Except.error Err.needExperimentNameOrTrainDir :=
  ⟨(missing_experiment_name_error envT flagsNoName rfl rfl).1 (by decide),
   (missing_experiment_name_error envT flagsOE rfl rfl).2 rfl⟩

/-- Claim C4: official_eval mode raises when `--json_in_path` is empty,
raises when `--ckpt_load_dir` is empty, and with both given it reads the
input JSON, restores the checkpoint from `ckpt_load_dir` demanding its
existence (raising the missing-checkpoint exception when unreadable),
generates the answer mapping and writes it to the output JSON path, in
that order. -/
theorem official_eval_flag_requirements (env : Env) (FLAGS : Flags)
    (hm : FLAGS.mode = "official_eval") :
    (FLAGS.json_in_path = "" →
      main env 1 3 FLAGS = .error .needJsonInPath ∧
      Err.needJsonInPath.message =
        "For official_eval mode, you need to specify --json_in_path") ∧
    (FLAGS.json_in_path ≠ "" → FLAGS.ckpt_load_dir = "" →
      main env 1 3 FLAGS = .error .needCkptLoadDir ∧
      Err.needCkptLoadDir.message =
        "For official_eval mode, you need to specify --ckpt_load_dir") ∧
    (FLAGS.json_in_path ≠ "" → FLAGS.ckpt_load_dir ≠ "" →
      hasReadableCheckpoint env FLAGS.ckpt_load_dir = false →
      main env 1 3 FLAGS = .error (.noCheckpoint FLAGS.ckpt_load_dir)) ∧
    (∀ c : Ckpt, FLAGS.json_in_path ≠ "" → FLAGS.ckpt_load_dir ≠ "" →
      env.get_checkpoint_state FLAGS.ckpt_load_dir = some c →
      (env.gfileExists c.model_checkpoint_path ||
        env.gfileExists (c.model_checkpoint_path ++ ".index")) = true →
      main env 1 3 FLAGS = .ok (defaultedFlags env FLAGS,
        [Event.loadGlove (defaultedFlags env FLAGS).glove_path
           FLAGS.embedding_size, Event.buildModel,
         Event.readJsonInput FLAGS.json_in_path, Event.sessionOpen,
         Event.lookFor FLAGS.ckpt_load_dir,
         Event.restore c.model_checkpoint_path,
         Event.generateAnswers,
         Event.writePredictions FLAGS.json_out_path])) := by
  have hv : ¬(FLAGS.experiment_name = "" ∧ FLAGS.train_dir = "" ∧
      FLAGS.mode ≠ "official_eval") := fun hh => hh.2.2 hm
  have hnt : ¬((defaultedFlags env FLAGS).mode = "train") := by
    show ¬(FLAGS.mode = "train"); rw [hm]; decide
  have hns : ¬((defaultedFlags env FLAGS).mode = "show_examples") := by
    show ¬(FLAGS.mode = "show_examples"); rw [hm]; decide
  refine ⟨?_, ?_, ?_, ?_⟩
  · intro hj
    refine ⟨?_, rfl⟩
    unfold main
    dsimp only
    rw [if_neg (by simp), if_neg (by simp), if_neg hv, if_neg hnt, if_neg hns,
      if_pos (show (defaultedFlags env FLAGS).mode = "official_eval" from hm),
      if_pos (show (defaultedFlags env FLAGS).json_in_path = "" from hj)]
  · intro hj hk
    refine ⟨?_, rfl⟩
    unfold main
    dsimp only
    rw [if_neg (by simp), if_neg (by simp), if_neg hv, if_neg hnt, if_neg hns,
      if_pos (show (defaultedFlags env FLAGS).mode = "official_eval" from hm),
      if_neg (show ¬((defaultedFlags env FLAGS).json_in_path = "") from hj),
      if_pos (show (defaultedFlags env FLAGS).ckpt_load_dir = "" from hk)]
  · intro hj hk hno
    have herr : initialize_model env FLAGS.ckpt_load_dir true =
        .error (.noCheckpoint FLAGS.ckpt_load_dir) := by
      unfold hasReadableCheckpoint at hno
      cases hc : env.get_checkpoint_state FLAGS.ckpt_load_dir with
      | none => simp [initialize_model, hc]
      | some c =>
          rw [hc] at hno
          dsimp only at hno
          simp [initialize_model, hc, hno]
    unfold main
    dsimp only
    rw [if_neg (by simp), if_neg (by simp), if_neg hv, if_neg hnt, if_neg hns,
      if_pos (show (defaultedFlags env FLAGS).mode = "official_eval" from hm),
      if_neg (show ¬((defaultedFlags env FLAGS).json_in_path = "") from hj),
      if_neg (show ¬((defaultedFlags env FLAGS).ckpt_load_dir = "") from hk),
      show (defaultedFlags env FLAGS).ckpt_load_dir = FLAGS.ckpt_load_dir from rfl,
      herr]
  · intro c hj hk hc hex
    have hok : initialize_model env FLAGS.ckpt_load_dir true =
        .ok [Event.lookFor FLAGS.ckpt_load_dir,
             Event.restore c.model_checkpoint_path] := by
      unfold initialize_model
      dsimp only
      rw [hc]
      dsimp only
      rw [if_pos hex]
    unfold main
    dsimp only
    rw [if_neg (by simp), if_neg (by simp), if_neg hv, if_neg hnt, if_neg hns,
      if_pos (show (defaultedFlags env FLAGS).mode = "official_eval" from hm),
      if_neg (show ¬((defaultedFlags env FLAGS).json_in_path = "") from hj),
      if_neg (show ¬((defaultedFlags env FLAGS).ckpt_load_dir = "") from hk),
      show (defaultedFlags env FLAGS).ckpt_load_dir = FLAGS.ckpt_load_dir from rfl,
      hok]
    rfl

/-- Witness for C4: the json_in_path-missing exception, and a full
successful official_eval run restoring the checkpoint of `envC`. -/
theorem official_eval_flag_requirements_witness :
    (main envT 1 3 flagsOEnoJson = Except.error Err.needJsonInPath ∧
     Err.needJsonInPath.message =
       "For official_eval mode, you need to specify --json_in_path") ∧
    main envC 1 3 flagsOE = Except.ok (defaultedFlags envC flagsOE,
      [Event.loadGlove (defaultedFlags envC flagsOE).glove_path
         flagsOE.embedding_size, Event.buildModel,
       Event.readJsonInput flagsOE.json_in_path, Event.sessionOpen,
       Event.lookFor flagsOE.ckpt_load_dir,
       Event.restore "ckpts/model-500",
       Event.generateAnswers,
       Event.writePredictions flagsOE.json_out_path]) :=
  ⟨(official_eval_flag_requirements envT flagsOEnoJson rfl).1 rfl,
   (official_eval_flag_requirements envC flagsOE rfl).2.2.2 ⟨"ckpts/model-500"⟩
     (by decide) (by decide) (by decide) (by decide)⟩

/-- Claim C5: with a validated name configuration, any mode other than
train, show_examples and official_eval makes `main` raise the fatal
configuration exception whose message names the unexpected mode value. -/
theorem unexpected_mode_error (env : Env) (FLAGS : Flags)
    (h1 : FLAGS.mode ≠ "train") (h2 : FLAGS.mode ≠ "show_examples")
    (h3 : FLAGS.mode ≠ "official_eval")
    (hv : ¬(FLAGS.experiment_name = "" ∧ FLAGS.train_dir = "")) :
    main env 1 3 FLAGS = .error (.unexpectedMode FLAGS.mode) ∧
    (Err.unexpectedMode FLAGS.mode).message =
      "Unexpected value of FLAGS.mode: " ++ FLAGS.mode := by
  refine ⟨?_, rfl⟩
  unfold main
  dsimp only
  rw [if_neg (by simp), if_neg (by simp),
    if_neg (fun hh => hv ⟨hh.1, hh.2.1⟩),
    if_neg (show ¬((defaultedFlags env FLAGS).mode = "train") from h1),
    if_neg (show ¬((defaultedFlags env FLAGS).mode = "show_examples") from h2),
    if_neg (show ¬((defaultedFlags env FLAGS).mode = "official_eval") from h3)]
  rfl

/-- Witness for C5: mode `eval` is rejected with a message naming it. -/
theorem unexpected_mode_error_witness :
    main envT 1 3 flagsBadMode =
      Except.error (Err.unexpectedMode flagsBadMode.mode) ∧
    (Err.unexpectedMode flagsBadMode.mode).message =
      "Unexpected value of FLAGS.mode: " ++ flagsBadMode.mode :=
  unexpected_mode_error envT flagsBadMode (by decide) (by decide) (by decide)
    (by decide)

/-- Claim C6: on every run of `main` that returns, `train_dir` is the
join of the experiments directory and `experiment_name` when the flag was
empty, and the given value unchanged otherwise. -/
theorem train_dir_default (env : Env) (a : Nat) (p : Int) (FLAGS f : Flags)
    (tr : List Event) (h : main env a p FLAGS = .ok (f, tr)) :
    f.train_dir =
      if FLAGS.train_dir = "" then
        joinPath (EXPERIMENTS_DIR env.mainDir) FLAGS.experiment_name
      else FLAGS.train_dir := by
  rw [main_ok_flags h]
  rfl

/-- Witness for C6 at the concrete run `envT`/`flagsT`. -/
theorem train_dir_default_witness :
    (defaultedFlags envT flagsT).train_dir =
      if flagsT.train_dir = "" then
        joinPath (EXPERIMENTS_DIR envT.mainDir) flagsT.experiment_name
      else flagsT.train_dir :=
  train_dir_default envT 1 3 flagsT (defaultedFlags envT flagsT) trainTrace
    (by decide)

/-- Claim C7: on every run of `main` that returns, `glove_path` is
`glove.6B.<embedding_size>d.txt` inside the default data directory when
the flag was empty, and the given value unchanged otherwise. -/
theorem glove_path_default (env : Env) (a : Nat) (p : Int) (FLAGS f : Flags)
    (tr : List Event) (h : main env a p FLAGS = .ok (f, tr)) :
    f.glove_path =
      if FLAGS.glove_path = "" then
        joinPath (DEFAULT_DATA_DIR env.mainDir)
          ("glove.6B." ++ toString FLAGS.embedding_size ++ "d.txt")
      else FLAGS.glove_path := by
  rw [main_ok_flags h]
  rfl

/-- Witness for C7 at the concrete run `envT`/`flagsT`. -/
theorem glove_path_default_witness :
    (defaultedFlags envT flagsT).glove_path =
      if flagsT.glove_path = "" then
        joinPath (DEFAULT_DATA_DIR envT.mainDir)
          ("glove.6B." ++ toString flagsT.embedding_size ++ "d.txt")
      else flagsT.glove_path :=
  glove_path_default envT 1 3 flagsT (defaultedFlags envT flagsT) trainTrace
    (by decide)

/-- Counterexample to claim C8 as stated: the configuration is mutated
after parsing.  Under `envT`/`flagsT` (empty `--train_dir` and
`--glove_path`), `main` runs to completion with a configuration that
differs from the parsed one. -/
theorem flags_mutated_after_parse_cex :
    ∃ f tr, main envT 1 3 flagsT = Except.ok (f, tr) ∧ f ≠ flagsT :=
  ⟨defaultedFlags envT flagsT, trainTrace, by decide, by decide⟩

/-- Claim C8 (amended): after parsing, `main` mutates the configuration
exactly in its two defaulting assignments — `train_dir` and `glove_path`
are replaced by their documented defaults when empty and kept otherwise —
and every other field is fixed for the lifetime of the run. -/
theorem flags_mutation_only_defaults (env : Env) (a : Nat) (p : Int)
    (FLAGS f : Flags) (tr : List Event) (h : main env a p FLAGS = .ok (f, tr)) :
    f = { FLAGS with
      train_dir := pyOr FLAGS.train_dir
        (joinPath (EXPERIMENTS_DIR env.mainDir) FLAGS.experiment_name)
      glove_path := pyOr FLAGS.glove_path
        (joinPath (DEFAULT_DATA_DIR env.mainDir)
          ("glove.6B." ++ toString FLAGS.embedding_size ++ "d.txt")) } := by
  rw [main_ok_flags h]
  rfl

/-- Witness for the amended C8 at the concrete run `envT`/`flagsT`. -/
theorem flags_mutation_only_defaults_witness :
    defaultedFlags envT flagsT = { flagsT with
      train_dir := pyOr flagsT.train_dir
        (joinPath (EXPERIMENTS_DIR envT.mainDir) flagsT.experiment_name)
      glove_path := pyOr flagsT.glove_path
        (joinPath (DEFAULT_DATA_DIR envT.mainDir)
          ("glove.6B." ++ toString flagsT.embedding_size ++ "d.txt")) } :=
  flags_mutation_only_defaults envT 1 3 flagsT (defaultedFlags envT flagsT)
    trainTrace (by decide)

/-- Counterexample to claim C9 as stated: with `--gpu 0`, the module
prologue's TensorFlow import is a framework-initialization step that
precedes the `CUDA_VISIBLE_DEVICES` assignment, so it is not the case
that no framework-initialization step precedes that assignment. -/
theorem tf_import_precedes_env_set_cex : ¬ envSetBeforeAllTFInit 0 := by
  decide

/-- Claim C9 (amended): for every `--gpu` value the top-level trace sets
`CUDA_VISIBLE_DEVICES` immediately before `tf.app.run` — the step that
invokes `main`, where all sessions are created — while the TensorFlow
module import occurs earlier, among the steps preceding the
assignment. -/
theorem env_set_before_tf_app_run : ∀ gpu : Int,
    ∃ pre, topLevel gpu =
        pre ++ [TopEvent.setEnviron "CUDA_VISIBLE_DEVICES" (toString gpu),
                TopEvent.tfAppRun] ∧
      TopEvent.tfAppRun ∉ pre ∧ TopEvent.importModule "tensorflow" ∈ pre := by
  intro gpu
  refine ⟨[.importModule "os", .importModule "io", .importModule "json",
    .importModule "sys", .importModule "logging", .importModule "argparse",
    .importModule "tensorflow", .importModule "qa_model",
    .importModule "vocab", .importModule "official_eval_helper",
    .loggingBasicConfig, .computeDirConstants, .argparseSetup,
    .parseKnownArgs], rfl, by decide, by decide⟩

/-- Witness for the amended C9 at `--gpu 0`. -/
theorem env_set_before_tf_app_run_witness :
    ∃ pre, topLevel 0 =
        pre ++ [TopEvent.setEnviron "CUDA_VISIBLE_DEVICES" (toString (0 : Int)),
                TopEvent.tfAppRun] ∧
      TopEvent.tfAppRun ∉ pre ∧ TopEvent.importModule "tensorflow" ∈ pre :=
  env_set_before_tf_app_run 0

/-- Claim C10: `main` raises whenever the interpreter major version is
not 3, with the self-contradictory message demanding Python 2 while
reporting the actual major version; under major version 3 the check
passes — that exception is never raised. -/
theorem python_version_check (env : Env) (FLAGS : Flags) (major : Int) :
    (major ≠ 3 →
      main env 1 major FLAGS = .error (.wrongPython major) ∧
      (Err.wrongPython major).message =
        "ERROR: You must use Python 2 but you are running Python " ++
          toString major) ∧
    (∀ m : Int, main env 1 3 FLAGS ≠ .error (.wrongPython m)) := by
  constructor
  · intro hmaj
    refine ⟨?_, rfl⟩
    unfold main
    dsimp only
    rw [if_neg (by simp), if_pos hmaj]
  · intro m hcontra
    rcases main_error_inv hcontra with
      ⟨h, _⟩ | ⟨h, _⟩ | ⟨_, _, _, h⟩ | ⟨d, h⟩ | ⟨_, _, h⟩ | ⟨_, _, _, h⟩ | ⟨_, _, _, h⟩
    · exact h rfl
    · exact h rfl
    · exact Err.noConfusion h
    · exact Err.noConfusion h
    · exact Err.noConfusion h
    · exact Err.noConfusion h
    · exact Err.noConfusion h

/-- Witness for C10: under major version 2 the run raises the
wrong-Python exception with its message; under version 3 it does not. -/
theorem python_version_check_witness :
    (main envT 1 2 flagsT = Except.error (Err.wrongPython 2) ∧
     (Err.wrongPython 2).message =
       "ERROR: You must use Python 2 but you are running Python " ++
         toString (2 : Int)) ∧
    main envT 1 3 flagsT ≠ Except.error (Err.wrongPython 2) :=
  ⟨(python_version_check envT flagsT 2).1 (by decide),
   (python_version_check envT flagsT 2).2 2⟩

end Squad
